import Mathlib

/-!
Shallow embedding of the gnuboy SDL2 backend (src/src/sys.h, the appended
sdl2.c translation unit): the key mapper, the joystick axis debouncer, the
event dispatcher and the double-buffered presentation pipeline, together with
theorems settling the frozen claims about them.
-/

namespace Gnuboy

/-- Internal event kinds, EV_PRESS / EV_RELEASE from input.h. -/
inductive EvType
  | EV_PRESS
  | EV_RELEASE
deriving DecidableEq, Repr

/-- event_t: a tagged (type, code) pair posted to the core's event queue. -/
structure event_t where
  type : EvType
  code : Int
deriving DecidableEq, Repr

/-- enum joyaxis { JA_X=0, JA_Y } (sys.h line 64). -/
inductive joyaxis
  | JA_X
  | JA_Y
deriving DecidableEq, Repr

/-- enum joyaxisvalue { JAV_LEFT_OR_UP = 0, JAV_CENTERED = 1,
JAV_RIGHT_OR_DOWN = 2 } (sys.h lines 65-67). -/
inductive joyaxisvalue
  | JAV_LEFT_OR_UP
  | JAV_CENTERED
  | JAV_RIGHT_OR_DOWN
deriving DecidableEq, Repr

/-- JOY_COMMIT_RANGE (sys.h line 69). -/
def JOY_COMMIT_RANGE : Int := 3276

/-- Modelled from the spec: internal directional pseudo-key code from input.h
(not under src/); the spec fixes only that the four directional codes are
distinct nonzero identifiers in a fixed namespace, so a representative value
is chosen. -/
def K_JOYLEFT : Int := 601

/-- Modelled from the spec: internal directional pseudo-key code, see
K_JOYLEFT. -/
def K_JOYRIGHT : Int := 602

/-- Modelled from the spec: internal directional pseudo-key code, see
K_JOYLEFT. -/
def K_JOYUP : Int := 603

/-- Modelled from the spec: internal directional pseudo-key code, see
K_JOYLEFT. -/
def K_JOYDOWN : Int := 604

/-- Modelled from the spec: the fixed base for the sixteen joystick-button
pseudo-keys (K_JOY0 from input.h, not under src/); a representative value. -/
def K_JOY0 : Int := 610

/-- SDLK_RETURN, the Enter key symbol (carriage return, 13). -/
def SDLK_RETURN : Int := 13

/-- The per-axis action tables of joyaxis_evt (sys.h lines 219-225):
X-axis is (K_JOYLEFT, 0, K_JOYRIGHT), Y-axis is (K_JOYUP, 0, K_JOYDOWN),
indexed by the numeric joyaxisvalue. -/
def axis_action : joyaxis → joyaxisvalue → Int
  | .JA_X, .JAV_LEFT_OR_UP => K_JOYLEFT
  | .JA_X, .JAV_CENTERED => 0
  | .JA_X, .JAV_RIGHT_OR_DOWN => K_JOYRIGHT
  | .JA_Y, .JAV_LEFT_OR_UP => K_JOYUP
  | .JA_Y, .JAV_CENTERED => 0
  | .JA_Y, .JAV_RIGHT_OR_DOWN => K_JOYDOWN

/-- The persistent axis registers Xstatus, Ystatus (sys.h line 77). -/
structure JoyState where
  Xstatus : joyaxisvalue
  Ystatus : joyaxisvalue
deriving DecidableEq, Repr

/-- Read the register of one axis (dereference of axis_data[axis].axis). -/
def JoyState.get (s : JoyState) : joyaxis → joyaxisvalue
  | .JA_X => s.Xstatus
  | .JA_Y => s.Ystatus

/-- Write the register of one axis (store through axis_data[axis].axis). -/
def JoyState.set (s : JoyState) : joyaxis → joyaxisvalue → JoyState
  | .JA_X, v => { s with Xstatus := v }
  | .JA_Y, v => { s with Ystatus := v }

/-- joy_init resets both registers to JAV_CENTERED (sys.h line 125). -/
def joy_init_state : JoyState := ⟨.JAV_CENTERED, .JAV_CENTERED⟩

/-- joyaxis_evt (sys.h lines 217-240): if the stored state equals the new
state, return without posting; otherwise post EV_RELEASE with the code bound
to the stored state (0 when the stored state is JAV_CENTERED), store the new
state, and when the new state is not JAV_CENTERED (numeric value 1) post
EV_PRESS with the code bound to it. Returns the new registers and the posted
events in posting order. -/
def joyaxis_evt (axis : joyaxis) (newstate : joyaxisvalue) (s : JoyState) :
    JoyState × List event_t :=
  if s.get axis = newstate then (s, [])
  else
    let rel : event_t := ⟨.EV_RELEASE, axis_action axis (s.get axis)⟩
    let s2 := s.set axis newstate
    if newstate ≠ .JAV_CENTERED then
      (s2, [rel, ⟨.EV_PRESS, axis_action axis newstate⟩])
    else
      (s2, [rel])

/-- The quantization of a raw axis value inside ev_poll's SDL_JOYAXISMOTION
case (sys.h lines 322-327): strictly above JOY_COMMIT_RANGE is
JAV_RIGHT_OR_DOWN, strictly below -JOY_COMMIT_RANGE is JAV_LEFT_OR_UP,
otherwise JAV_CENTERED. -/
def joyaxis_quantize (value : Int) : joyaxisvalue :=
  if value > JOY_COMMIT_RANGE then .JAV_RIGHT_OR_DOWN
  else if value < -JOY_COMMIT_RANGE then .JAV_LEFT_OR_UP
  else .JAV_CENTERED

/-- The linear search loop of mapscancode (sys.h lines 109-111): walk the
keymap table until the sentinel entry whose first component is 0; on the
first entry whose first component equals sym, return its second component. -/
def mapscancode_go : List (Int × Int) → Int → Option Int
  | [], _ => none
  | (k, v) :: rest, sym =>
    if k = 0 then none
    else if k = sym then some v
    else mapscancode_go rest sym

/-- mapscancode (sys.h lines 103-117), parameterized by the keymap table
(extern int keymap[][2], defined in sdl/keymap.c which is not under src/):
table hit wins; otherwise an ASCII digit or lowercase letter maps to its own
code; otherwise 0. -/
def mapscancode (km : List (Int × Int)) (sym : Int) : Int :=
  match mapscancode_go km sym with
  | some v => v
  | none =>
    if 48 ≤ sym ∧ sym ≤ 57 then sym
    else if 97 ≤ sym ∧ sym ≤ 122 then sym
    else 0

/-- The mutable backend state read and written by ev_poll: the axis
registers, the fullscreen flag, the altenter config boolean and fb.enabled
(sys.h lines 71-77). -/
structure SysState where
  joy : JoyState
  fullscreen : Bool
  use_altenter : Bool
  fb_enabled : Bool
deriving DecidableEq, Repr

/-- The window sub-events ev_poll distinguishes (sys.h lines 254-261). -/
inductive WinEv
  | minimized
  | hidden
  | shown
  | restored
  | otherWin
deriving DecidableEq, Repr

/-- The nine SDL hat positions (sys.h lines 278-311). -/
inductive HatVal
  | leftup
  | up
  | rightup
  | left
  | centered
  | right
  | leftdown
  | down
  | rightdown
deriving DecidableEq, Repr

/-- The host events ev_poll dispatches on (sys.h lines 250-348); the
SDL_QUIT case terminates the process and is not modelled. keyDown carries
the key symbol and whether an ALT modifier bit is set. -/
inductive SDLEvent
  | windowEvent (w : WinEv)
  | keyDown (sym : Int) (altHeld : Bool)
  | keyUp (sym : Int)
  | joyHatMotion (v : HatVal)
  | joyAxisMotion (axisIdx : Nat) (value : Int)
  | joyButtonDown (button : Nat)
  | joyButtonUp (button : Nat)
deriving DecidableEq, Repr

/-- The one or two joyaxis_evt calls each hat position triggers
(sys.h lines 278-311), in source order. -/
def hat_updates : HatVal → List (joyaxis × joyaxisvalue)
  | .leftup => [(.JA_X, .JAV_LEFT_OR_UP), (.JA_Y, .JAV_LEFT_OR_UP)]
  | .up => [(.JA_Y, .JAV_LEFT_OR_UP)]
  | .rightup => [(.JA_X, .JAV_RIGHT_OR_DOWN), (.JA_Y, .JAV_LEFT_OR_UP)]
  | .left => [(.JA_X, .JAV_LEFT_OR_UP)]
  | .centered => [(.JA_X, .JAV_CENTERED), (.JA_Y, .JAV_CENTERED)]
  | .right => [(.JA_X, .JAV_RIGHT_OR_DOWN)]
  | .leftdown => [(.JA_X, .JAV_LEFT_OR_UP), (.JA_Y, .JAV_RIGHT_OR_DOWN)]
  | .down => [(.JA_Y, .JAV_RIGHT_OR_DOWN)]
  | .rightdown => [(.JA_X, .JAV_RIGHT_OR_DOWN), (.JA_Y, .JAV_RIGHT_OR_DOWN)]

/-- Run a list of joyaxis_evt calls in order, threading the registers and
concatenating the posted events. -/
def run_joy_updates (j : JoyState) :
    List (joyaxis × joyaxisvalue) → JoyState × List event_t
  | [] => (j, [])
  | (a, v) :: rest =>
    let r := joyaxis_evt a v j
    let r2 := run_joy_updates r.1 rest
    (r2.1, r.2 ++ r2.2)

/-- One iteration of ev_poll's event switch (sys.h lines 250-348): the new
backend state and the internal events posted for this host event, in posting
order. -/
def ev_poll_event (km : List (Int × Int)) (e : SDLEvent) (s : SysState) :
    SysState × List event_t :=
  match e with
  | .windowEvent w =>
    match w with
    | .minimized => ({ s with fb_enabled := false }, [])
    | .hidden => ({ s with fb_enabled := false }, [])
    | .shown => ({ s with fb_enabled := true }, [])
    | .restored => ({ s with fb_enabled := true }, [])
    | .otherWin => (s, [])
  | .keyDown sym altHeld =>
    let s1 :=
      if sym = SDLK_RETURN ∧ altHeld then { s with fullscreen := !s.fullscreen }
      else s
    (s1, [⟨.EV_PRESS, mapscancode km sym⟩])
  | .keyUp sym => (s, [⟨.EV_RELEASE, mapscancode km sym⟩])
  | .joyHatMotion v =>
    let r := run_joy_updates s.joy (hat_updates v)
    ({ s with joy := r.1 }, r.2)
  | .joyAxisMotion axisIdx value =>
    if axisIdx = 0 then
      let r := joyaxis_evt .JA_X (joyaxis_quantize value) s.joy
      ({ s with joy := r.1 }, r.2)
    else if axisIdx = 1 then
      let r := joyaxis_evt .JA_Y (joyaxis_quantize value) s.joy
      ({ s with joy := r.1 }, r.2)
    else (s, [])
  | .joyButtonDown button =>
    if button > 15 then (s, [])
    else (s, [⟨.EV_PRESS, K_JOY0 + (button : Int)⟩])
  | .joyButtonUp button =>
    if button > 15 then (s, [])
    else (s, [⟨.EV_RELEASE, K_JOY0 + (button : Int)⟩])

/-- ev_poll drains the queued host events in order (sys.h line 248),
threading the backend state and concatenating all posted events. -/
def ev_poll (km : List (Int × Int)) (events : List SDLEvent) (s : SysState) :
    SysState × List event_t :=
  match events with
  | [] => (s, [])
  | e :: rest =>
    let r := ev_poll_event km e s
    let r2 := ev_poll km rest r.1
    (r2.1, r.2 ++ r2.2)

/-- The presentation-pipeline state observable through vid_begin / vid_end:
which of screens[0] / screens[1] the variable screen points at, whether that
surface is locked, counters for the four renderer calls made by an enabled
vid_end, and fb.enabled. -/
structure VidState where
  screenIdx : Fin 2
  locked : Bool
  uploads : Nat
  clears : Nat
  copies : Nat
  presents : Nat
  enabled : Bool
deriving DecidableEq, Repr

/-- After vid_init (sys.h lines 153-215): screen = screens[0], the surface
left unlocked (line 211), fb.enabled = 1 (line 213), no renderer calls yet. -/
def vid_init_state : VidState :=
  { screenIdx := 0, locked := false, uploads := 0, clears := 0, copies := 0,
    presents := 0, enabled := true }

/-- vid_begin (sys.h lines 377-381): locks the current surface. -/
def vid_begin (s : VidState) : VidState := { s with locked := true }

/-- vid_end (sys.h lines 383-394): unlocks the surface; then, only when
fb.enabled, uploads to the texture, clears, copies, presents, and runs the
surface reassignment, which the source writes as
if (screen == screens[0]) screen = screens[1]; else screen = screens[1];
— both branches select screens[1], translated faithfully. -/
def vid_end (s : VidState) : VidState :=
  let s1 := { s with locked := false }
  if s1.enabled then
    { s1 with
      uploads := s1.uploads + 1
      clears := s1.clears + 1
      copies := s1.copies + 1
      presents := s1.presents + 1
      screenIdx := if s1.screenIdx = 0 then 1 else 1 }
  else s1

/-- One completed begin/end frame cycle. -/
def vid_cycle (s : VidState) : VidState := vid_end (vid_begin s)

/-- The backend state after joy_init and vid_init: axes centered,
fullscreen = 0, altenter = 1, fb.enabled = 1 (sys.h lines 73-74, 125, 213). -/
def sys_init_state : SysState :=
  { joy := joy_init_state, fullscreen := false, use_altenter := true,
    fb_enabled := true }

/-- The end-to-end scenario's raw X-axis readings. -/
def C2_readings : List Int := [0, 4000, 4000, -4000, 0]

/-- The scenario readings as host axis-motion events on axis index 0 (X). -/
def C2_events : List SDLEvent := C2_readings.map (SDLEvent.joyAxisMotion 0)

/-- C1 counterexample: from both axes CENTERED, the first update of the X
axis to RIGHT_OR_DOWN does post an EV_RELEASE event (with code 0, the code
bound to CENTERED), contradicting the claim that no RELEASE event is posted
on the first non-centered update. -/
theorem C1_counterexample :
    (⟨EvType.EV_RELEASE, 0⟩ : event_t) ∈
      (joyaxis_evt joyaxis.JA_X joyaxisvalue.JAV_RIGHT_OR_DOWN
        joy_init_state).2 := by
  decide

/-- C1 amended: from CENTERED, the first non-centered update posts exactly
one EV_RELEASE carrying code 0 (the code bound to CENTERED) followed by
exactly one EV_PRESS for the key bound to (axis, newstate); and any
EV_RELEASE carrying a nonzero code (a key bound to a non-centered state) is
posted only when the axis's stored state before the update is non-centered,
and its code is the one bound to that stored state. -/
theorem C1_amended_first_update (axis : joyaxis) (newstate : joyaxisvalue)
    (s : JoyState) :
    (s.get axis = joyaxisvalue.JAV_CENTERED →
      newstate ≠ joyaxisvalue.JAV_CENTERED →
      (joyaxis_evt axis newstate s).2 =
        [⟨EvType.EV_RELEASE, 0⟩, ⟨EvType.EV_PRESS, axis_action axis newstate⟩])
    ∧ (∀ ev ∈ (joyaxis_evt axis newstate s).2,
        ev.type = EvType.EV_RELEASE → ev.code ≠ 0 →
        s.get axis ≠ joyaxisvalue.JAV_CENTERED ∧
        ev.code = axis_action axis (s.get axis)) := by
  rcases s with ⟨x, y⟩
  cases axis <;> cases newstate <;> cases x <;> cases y <;> decide

/-- C2 counterexample: feeding the readings [0, 4000, 4000, -4000, 0] on the
X axis through ev_poll from the initial state posts five internal events in
total, not four as claimed: an extra EV_RELEASE with code 0 precedes the
first press. -/
theorem C2_counterexample :
    (ev_poll [] C2_events sys_init_state).2.length = 5 ∧
    (ev_poll [] C2_events sys_init_state).2.length ≠ 4 := by
  decide

/-- C2 amended: the scenario posts five internal events in total, in order
RELEASE(0), PRESS(RIGHT) after the second reading, RELEASE(RIGHT),
PRESS(LEFT) after the fourth reading, and RELEASE(LEFT) after the fifth
reading; the first and third readings post nothing. -/
theorem C2_amended_scenario :
    (ev_poll [] (C2_events.take 1) sys_init_state).2 = [] ∧
    (ev_poll [] (C2_events.take 2) sys_init_state).2 =
      [⟨EvType.EV_RELEASE, 0⟩, ⟨EvType.EV_PRESS, K_JOYRIGHT⟩] ∧
    (ev_poll [] (C2_events.take 3) sys_init_state).2 =
      [⟨EvType.EV_RELEASE, 0⟩, ⟨EvType.EV_PRESS, K_JOYRIGHT⟩] ∧
    (ev_poll [] (C2_events.take 4) sys_init_state).2 =
      [⟨EvType.EV_RELEASE, 0⟩, ⟨EvType.EV_PRESS, K_JOYRIGHT⟩,
       ⟨EvType.EV_RELEASE, K_JOYRIGHT⟩, ⟨EvType.EV_PRESS, K_JOYLEFT⟩] ∧
    (ev_poll [] C2_events sys_init_state).2 =
      [⟨EvType.EV_RELEASE, 0⟩, ⟨EvType.EV_PRESS, K_JOYRIGHT⟩,
       ⟨EvType.EV_RELEASE, K_JOYRIGHT⟩, ⟨EvType.EV_PRESS, K_JOYLEFT⟩,
       ⟨EvType.EV_RELEASE, K_JOYLEFT⟩] := by
  decide

/-- C5 counterexample: the raw value 3276, equal to the positive commit
threshold, quantizes to CENTERED, not to RIGHT_OR_DOWN as the claim states;
symmetrically -3276 quantizes to CENTERED, not LEFT_OR_UP. -/
theorem C5_counterexample :
    joyaxis_quantize 3276 = joyaxisvalue.JAV_CENTERED ∧
    joyaxis_quantize 3276 ≠ joyaxisvalue.JAV_RIGHT_OR_DOWN ∧
    joyaxis_quantize (-3276) = joyaxisvalue.JAV_CENTERED ∧
    joyaxis_quantize (-3276) ≠ joyaxisvalue.JAV_LEFT_OR_UP := by
  decide

/-- C5 amended: a value quantizes to RIGHT_OR_DOWN exactly when it is
strictly above the commit threshold 3276, to LEFT_OR_UP exactly when it is
strictly below -3276, and to CENTERED exactly when it lies in the closed
band [-3276, 3276]; in particular 3275 and 3276 are CENTERED and -3275 and
-3276 are CENTERED. -/
theorem C5_amended_quantize (value : Int) :
    (joyaxis_quantize value = joyaxisvalue.JAV_RIGHT_OR_DOWN ↔
      JOY_COMMIT_RANGE < value) ∧
    (joyaxis_quantize value = joyaxisvalue.JAV_LEFT_OR_UP ↔
      value < -JOY_COMMIT_RANGE) ∧
    (joyaxis_quantize value = joyaxisvalue.JAV_CENTERED ↔
      -JOY_COMMIT_RANGE ≤ value ∧ value ≤ JOY_COMMIT_RANGE) := by
  unfold joyaxis_quantize JOY_COMMIT_RANGE
  split_ifs with h1 h2 <;>
    refine ⟨⟨fun hc => ?_, fun hc => ?_⟩, ⟨fun hc => ?_, fun hc => ?_⟩,
      ⟨fun hc => ?_, fun hc => ?_⟩⟩ <;>
    first
      | omega
      | rfl
      | simp_all

/-- C7: the axis debouncer is idempotent: for every axis, target state and
starting registers, the second of two identical updates posts no events and
leaves the registers unchanged, and the first posts at most one EV_PRESS and
at most one EV_RELEASE. -/
theorem C7_idempotent (axis : joyaxis) (v : joyaxisvalue) (s : JoyState) :
    joyaxis_evt axis v (joyaxis_evt axis v s).1 =
      ((joyaxis_evt axis v s).1, ([] : List event_t)) ∧
    (joyaxis_evt axis v s).2.countP
      (fun ev => decide (ev.type = EvType.EV_PRESS)) ≤ 1 ∧
    (joyaxis_evt axis v s).2.countP
      (fun ev => decide (ev.type = EvType.EV_RELEASE)) ≤ 1 := by
  rcases s with ⟨x, y⟩
  cases axis <;> cases v <;> cases x <;> cases y <;> decide

/-- C3: at the failing input N = 2, starting from the initial state (front =
screens[0], presentation enabled throughout), two completed begin/end cycles
leave the front index at 1 while N mod 2 = 0: the source's reassignment
selects screens[1] in both branches of its if/else, so the front surface
never returns to screens[0]. -/
theorem C3_swap_stuck_at_one :
    vid_init_state.screenIdx = 0 ∧
    vid_init_state.enabled = true ∧
    (vid_cycle vid_init_state).enabled = true ∧
    (vid_cycle (vid_cycle vid_init_state)).screenIdx = 1 ∧
    (2 : Nat) % 2 = 0 := by
  decide

/-- C4 counterexample: on two states identical except for the enabled flag
(front = screens[0], surface locked, no renderer calls yet), the disabled
vid_end leaves the front index unchanged while the enabled vid_end
reassigns it: the disabled call does not perform the front-surface swap
bookkeeping the claim says it still performs. -/
theorem C4_counterexample :
    (vid_end { screenIdx := 0, locked := true, uploads := 0, clears := 0,
               copies := 0, presents := 0, enabled := false }).screenIdx = 0 ∧
    (vid_end { screenIdx := 0, locked := true, uploads := 0, clears := 0,
               copies := 0, presents := 0, enabled := true }).screenIdx = 1 := by
  decide

/-- C4 amended: when fb.enabled is false, vid_end performs no texture
upload, no renderer clear, no copy and no present, does not touch the front
surface index, and changes nothing except unlocking the surface. -/
theorem C4_amended_disabled_end (s : VidState) (h : s.enabled = false) :
    vid_end s = { s with locked := false } := by
  unfold vid_end
  simp [h]

/-- C4 amended, witness: a concrete disabled state, only unlocked by
vid_end. -/
theorem C4_amended_disabled_end_witness :
    vid_end { screenIdx := 0, locked := true, uploads := 0, clears := 0,
              copies := 0, presents := 0, enabled := false } =
      { screenIdx := 0, locked := false, uploads := 0, clears := 0,
        copies := 0, presents := 0, enabled := false } :=
  C4_amended_disabled_end
    { screenIdx := 0, locked := true, uploads := 0, clears := 0,
      copies := 0, presents := 0, enabled := false } rfl

/-- The search loop of mapscancode agrees with List.find? on the first
matching entry when the table holds no sentinel (no entry with first
component 0). -/
theorem mapscancode_go_eq_find (km : List (Int × Int)) (sym : Int)
    (hkm : ∀ p ∈ km, p.1 ≠ 0) :
    mapscancode_go km sym =
      (km.find? (fun q => q.1 == sym)).map Prod.snd := by
  induction km with
  | nil => rfl
  | cons p rest ih =>
    have hp : p.1 ≠ 0 := hkm p (List.mem_cons_self p rest)
    have hrest : ∀ q ∈ rest, q.1 ≠ 0 :=
      fun q hq => hkm q (List.mem_cons_of_mem p hq)
    rcases p with ⟨k, v⟩
    by_cases hk : k = sym
    · subst hk
      simp only [ne_eq] at hp
      simp [mapscancode_go, hp, List.find?]
    · simp only [ne_eq] at hp
      have hb : (k == sym) = false := beq_eq_false_iff_ne.mpr hk
      simp [mapscancode_go, hp, hk, hb, List.find?, ih hrest]

/-- C6: the key mapper is a total function of its argument; over any
sentinel-free table, a symbol whose first matching entry is p maps to p's
internal code, and an unmatched symbol maps to itself when it is an ASCII
digit or lowercase letter and to 0 otherwise. -/
theorem C6_mapscancode_correct (km : List (Int × Int)) (sym : Int)
    (hkm : ∀ p ∈ km, p.1 ≠ 0) :
    (∀ p : Int × Int, km.find? (fun q => q.1 == sym) = some p →
      mapscancode km sym = p.2) ∧
    (km.find? (fun q => q.1 == sym) = none →
      mapscancode km sym =
        if (48 ≤ sym ∧ sym ≤ 57) ∨ (97 ≤ sym ∧ sym ≤ 122) then sym
        else 0) := by
  have hgo := mapscancode_go_eq_find km sym hkm
  constructor
  · intro p hp
    unfold mapscancode
    rw [hgo, hp]
    rfl
  · intro hnone
    unfold mapscancode
    rw [hgo, hnone]
    by_cases h1 : 48 ≤ sym ∧ sym ≤ 57 <;>
      by_cases h2 : 97 ≤ sym ∧ sym ≤ 122 <;>
      simp [h1, h2]

/-- C6 witness: on the concrete one-entry table [(13, 99)], symbol 13 maps
to its table code 99. -/
theorem C6_mapscancode_correct_witness : mapscancode [(13, 99)] 13 = 99 :=
  (C6_mapscancode_correct [(13, 99)] 13 (by decide)).1 (13, 99) (by decide)

/-- C8: for every joystick button event, a button index of at most 15 posts
exactly one event with code K_JOY0 plus the index (EV_PRESS on down,
EV_RELEASE on up) and leaves the state unchanged, while an index greater
than 15 posts nothing and changes nothing. -/
theorem C8_buttons (km : List (Int × Int)) (b : Nat) (s : SysState) :
    (b ≤ 15 →
      ev_poll_event km (SDLEvent.joyButtonDown b) s =
        (s, [⟨EvType.EV_PRESS, K_JOY0 + (b : Int)⟩]) ∧
      ev_poll_event km (SDLEvent.joyButtonUp b) s =
        (s, [⟨EvType.EV_RELEASE, K_JOY0 + (b : Int)⟩])) ∧
    (15 < b →
      ev_poll_event km (SDLEvent.joyButtonDown b) s = (s, []) ∧
      ev_poll_event km (SDLEvent.joyButtonUp b) s = (s, [])) := by
  refine ⟨fun hb => ?_, fun hb => ?_⟩
  · have h : ¬ b > 15 := by omega
    constructor <;> simp [ev_poll_event, h]
  · constructor <;> simp [ev_poll_event, hb]

/-- C9: every host key-down or key-up event posts exactly one internal
event carrying the mapper's result, unconditionally; in particular, for a
symbol absent from the table and neither a digit nor a lowercase letter,
the event is still posted, with code 0. -/
theorem C9_unmapped_key_still_posts (km : List (Int × Int)) (sym : Int)
    (altHeld : Bool) (s : SysState) :
    (ev_poll_event km (SDLEvent.keyDown sym altHeld) s).2 =
      [⟨EvType.EV_PRESS, mapscancode km sym⟩] ∧
    (ev_poll_event km (SDLEvent.keyUp sym) s).2 =
      [⟨EvType.EV_RELEASE, mapscancode km sym⟩] ∧
    (mapscancode_go km sym = none →
      ¬ (48 ≤ sym ∧ sym ≤ 57) → ¬ (97 ≤ sym ∧ sym ≤ 122) →
      (ev_poll_event km (SDLEvent.keyDown sym altHeld) s).2 =
        [⟨EvType.EV_PRESS, 0⟩]) := by
  refine ⟨rfl, rfl, fun h1 h2 h3 => ?_⟩
  have hms : mapscancode km sym = 0 := by
    unfold mapscancode
    rw [h1]
    simp [h2, h3]
  show [(⟨EvType.EV_PRESS, mapscancode km sym⟩ : event_t)] = _
  rw [hms]

/-- ev_poll_event never reads use_altenter: flipping that field of the
input state flips exactly that field of the output state and changes no
posted event. -/
theorem ev_poll_event_altenter (km : List (Int × Int)) (e : SDLEvent)
    (s : SysState) (b : Bool) :
    ev_poll_event km e { s with use_altenter := b } =
      ({ (ev_poll_event km e s).1 with use_altenter := b },
       (ev_poll_event km e s).2) := by
  cases e with
  | windowEvent w => cases w <;> rfl
  | keyDown sym altHeld =>
    by_cases h : sym = SDLK_RETURN ∧ altHeld = true <;>
      simp [ev_poll_event, h]
  | keyUp sym => rfl
  | joyHatMotion v => rfl
  | joyAxisMotion axisIdx value =>
    by_cases h0 : axisIdx = 0
    · simp [ev_poll_event, h0]
    · by_cases h1 : axisIdx = 1 <;> simp [ev_poll_event, h0, h1]
  | joyButtonDown button => by_cases h : button > 15 <;> simp [ev_poll_event, h]
  | joyButtonUp button => by_cases h : button > 15 <;> simp [ev_poll_event, h]

/-- ev_poll never reads use_altenter, over any event sequence. -/
theorem ev_poll_altenter (km : List (Int × Int)) (events : List SDLEvent)
    (b : Bool) :
    ∀ s : SysState,
      ev_poll km events { s with use_altenter := b } =
        ({ (ev_poll km events s).1 with use_altenter := b },
         (ev_poll km events s).2) := by
  induction events with
  | nil => intro s; rfl
  | cons e rest ih =>
    intro s
    simp only [ev_poll]
    rw [ev_poll_event_altenter, ih]

/-- C10: use_altenter has no effect: two ev_poll runs on states differing
only in use_altenter produce identical event lists and final states equal
up to that same field; and an ALT+Enter key-down toggles the fullscreen
flag regardless (in particular independently of use_altenter), while still
posting its key event. -/
theorem C10_altenter_no_effect (km : List (Int × Int))
    (events : List SDLEvent) (s : SysState) (b : Bool) :
    ev_poll km events { s with use_altenter := b } =
      ({ (ev_poll km events s).1 with use_altenter := b },
       (ev_poll km events s).2) ∧
    (ev_poll_event km (SDLEvent.keyDown SDLK_RETURN true) s).1.fullscreen =
      !s.fullscreen := by
  refine ⟨ev_poll_altenter km events b s, ?_⟩
  simp [ev_poll_event]

end Gnuboy
